import Mathlib

/-!
Shallow embedding of `optuna_dashboard/preferential/_study.py`: the
preference Ledger, the per-trial comparison-ready flag, the frontier
computation `get_best_trials`, and study creation/loading with the
preferential marker.  The external trial store (`optuna`) and the Ledger
internals (`_system_attrs`) are modelled from the spec where noted; every
other definition is translated from the source file.
-/

namespace PreferentialCore

/-- Trial lifecycle states of the external trial store
(`optuna.trial.TrialState`). -/
inductive TrialState where
  | waiting
  | running
  | complete
  | failed
  | pruned
  deriving DecidableEq

/-- JSON-serializable attribute values held in system attributes.
Keeping `boolv true` distinct from other truthy values mirrors Python,
where `x is True` and `bool(x)` disagree. -/
inductive AttrVal where
  | boolv (b : Bool)
  | intv (n : Int)
  | strv (s : String)
  | nullv
  deriving DecidableEq

/-- A frozen trial snapshot: study-scoped `number`, globally unique
`trialId` (the source's `_trial_id`), lifecycle `state`, and its system
attributes. -/
structure FrozenTrial where
  number : Nat
  trialId : Nat
  state : TrialState
  system_attrs : List (String × AttrVal)
  deriving DecidableEq

def SYSTEM_ATTR_PREFERENTIAL_STUDY : String := "preference:is_preferential"

def SYSTEM_ATTR_COMPARISON_READY : String := "preference:comparison_ready"

/-- Python `dict.get(key)`: the first binding of `key` in an association
list, `none` when absent. -/
def attrGet (attrs : List (String × AttrVal)) (key : String) : Option AttrVal :=
  (attrs.find? (fun p => p.1 == key)).map Prod.snd

/-- Python `dict[key] = v`: replace the binding of `key` when present,
otherwise append a new binding. -/
def upsert (attrs : List (String × AttrVal)) (key : String) (v : AttrVal) :
    List (String × AttrVal) :=
  if attrs.any (fun p => p.1 == key) then
    attrs.map (fun p => if p.1 == key then (key, v) else p)
  else
    attrs ++ [(key, v)]

/-- The per-study state of the backing store: the trial list (ascending
by number) and the preference Ledger. -/
structure StudyState where
  trials : List FrozenTrial
  preferences : List (Nat × Nat)
  deriving DecidableEq

/-- Modelled from the spec: `_system_attrs.report_preferences` (the
Ledger `append`), absent from `src/`; appends all given pairs, in order,
in a single call. -/
def report_preferences (s : StudyState) (pairs : List (Nat × Nat)) : StudyState :=
  { s with preferences := s.preferences ++ pairs }

/-- Modelled from the spec: `_system_attrs.get_preferences` (the Ledger
`read_all`), absent from `src/`; returns every statement ever appended
for the study, in insertion order, with no filtering or aggregation. -/
def ledgerReadAll (s : StudyState) : List (Nat × Nat) :=
  s.preferences

/-- Embeds `storage.get_all_trials(study_id, states=...)`: the study's trials,
restricted to the given states when a filter is supplied. -/
def getAllTrials (s : StudyState) (states : Option (List TrialState)) :
    List FrozenTrial :=
  match states with
  | none => s.trials
  | some sts => s.trials.filter (fun t => sts.contains t.state)

/-- Embeds `copy.deepcopy` of an immutable snapshot value. -/
def deepcopy (t : FrozenTrial) : FrozenTrial := t

/-- Embeds `get_best_trials(study_id, storage)`: the ready pool (state complete
or running with the comparison-ready attribute `is True`), minus every
trial whose number occurs as the worse element of some preference,
returned as deep copies. -/
def getBestTrials (s : StudyState) : List FrozenTrial :=
  let ready_trials :=
    (getAllTrials s (some [TrialState.complete, TrialState.running])).filter
      (fun t => attrGet t.system_attrs SYSTEM_ATTR_COMPARISON_READY
          == some (AttrVal.boolv true))
  let preferences := ledgerReadAll s
  let worse_numbers := preferences.map Prod.snd
  (ready_trials.filter (fun t => !(worse_numbers.contains t.number))).map deepcopy

/-- A `FrozenTrial | list[FrozenTrial]` argument of `report_preference`. -/
inductive TrialsArg where
  | single (t : FrozenTrial)
  | list (ts : List FrozenTrial)

/-- The `isinstance(x, list)` normalization at the top of
`report_preference`: a scalar becomes a one-element list. -/
def normalizeTrials : TrialsArg → List FrozenTrial
  | TrialsArg.single t => [t]
  | TrialsArg.list ts => ts

/-- Embeds `PreferentialStudy.report_preference`: normalize both arguments, then
append the full (better × worse) cross product of number pairs to the
Ledger in one call, better as outer loop. -/
def reportPreference (s : StudyState) (better worse : TrialsArg) : StudyState :=
  let better_trials := normalizeTrials better
  let worse_trials := normalizeTrials worse
  report_preferences s
    (better_trials.flatMap (fun b => worse_trials.map (fun w => (b.number, w.number))))

/-- The list comprehension `[(trials[better], trials[worse]) for ...]`:
resolve each pair left to right by positional indexing, failing on the
first out-of-range index. -/
def resolvePairs (trials : List FrozenTrial) :
    List (Nat × Nat) → Option (List (FrozenTrial × FrozenTrial))
  | [] => some []
  | bw :: rest =>
    match trials[bw.1]?, trials[bw.2]? with
    | some b, some w =>
      match resolvePairs trials rest with
      | some l => some ((b, w) :: l)
      | none => none
    | _, _ => none

/-- Embeds `PreferentialStudy.get_preferences`: resolve each Ledger pair by
positional indexing into the full trial list; `none` models the
`IndexError` Python raises on an out-of-range index. -/
def getPreferences (s : StudyState) : Option (List (FrozenTrial × FrozenTrial)) :=
  resolvePairs s.trials (ledgerReadAll s)

/-- An argument of `mark_comparison_ready`: a live trial handle carrying
its `_trial_id`, a plain integer trial number, or anything else. -/
inductive TrialRef where
  | handle (trialId : Nat)
  | number (n : Nat)
  | other

/-- Embeds `storage.set_trial_system_attr(trial_id, key, value)`: update the
attributes of the trial with that id. -/
def setTrialSystemAttr (s : StudyState) (tid : Nat) (key : String) (v : AttrVal) :
    StudyState :=
  { s with trials := s.trials.map (fun t =>
      if t.trialId == tid then { t with system_attrs := upsert t.system_attrs key v }
      else t) }

/-- Embeds `storage.get_trial_id_from_study_id_trial_number`. -/
def getTrialIdFromNumber (s : StudyState) (n : Nat) : Option Nat :=
  (s.trials.find? (fun t => t.number == n)).map FrozenTrial.trialId

/-- Embeds `PreferentialStudy.mark_comparison_ready`: dispatch on the argument
type, resolve the concrete trial id, and set the comparison-ready flag to
`True`; a non-handle non-integer argument raises
`RuntimeError("Unexpected trial type")`. -/
def markComparisonReady (s : StudyState) : TrialRef → Except String StudyState
  | TrialRef.handle tid =>
      Except.ok (setTrialSystemAttr s tid SYSTEM_ATTR_COMPARISON_READY (AttrVal.boolv true))
  | TrialRef.number n =>
      match getTrialIdFromNumber s n with
      | some tid =>
          Except.ok (setTrialSystemAttr s tid SYSTEM_ATTR_COMPARISON_READY (AttrVal.boolv true))
      | none => Except.error "trial not found"
  | TrialRef.other => Except.error "Unexpected trial type"

/-- A state-mutating core operation of `PreferentialStudy`. -/
inductive CoreOp where
  | report (better worse : TrialsArg)
  | mark (r : TrialRef)

/-- Apply a core operation; a raised error leaves the store unchanged,
as a propagated Python exception does. -/
def applyOp (s : StudyState) : CoreOp → StudyState
  | CoreOp.report better worse => reportPreference s better worse
  | CoreOp.mark r =>
      match markComparisonReady s r with
      | Except.ok s2 => s2
      | Except.error _ => s

/-- One study record in the backing store: its unique name and its
study-level system attributes. -/
structure StudyRecord where
  name : String
  system_attrs : List (String × AttrVal)
  deriving DecidableEq

/-- The backing store seen by `create_study` / `load_study`. -/
abbrev Storage := List StudyRecord

/-- Errors surfaced by study creation and loading. -/
inductive StoreErr where
  | duplicatedStudy
  | studyNotFound
  | valueError (msg : String)
  deriving DecidableEq

/-- Python truthiness of `system_attrs.get(key)` (an absent key gives
`None`, which is falsy). -/
def isTruthy : Option AttrVal → Bool
  | none => false
  | some (AttrVal.boolv b) => b
  | some (AttrVal.intv n) => n != 0
  | some (AttrVal.strv s) => s != ""
  | some AttrVal.nullv => false

/-- Modelled from the spec: `optuna.create_study`, the external store's
study creation, raising a duplicate-name error when the name exists and
otherwise appending a fresh study with empty attributes. -/
def optunaCreateStudy (storage : Storage) (name : String) :
    Except StoreErr (Storage × String) :=
  if storage.any (fun r => r.name == name) then Except.error StoreErr.duplicatedStudy
  else Except.ok (storage ++ [⟨name, []⟩], name)

/-- Embeds `storage.set_study_system_attr`: update the named study's study-level
system attributes. -/
def setStudySystemAttr (storage : Storage) (name : String) (key : String)
    (v : AttrVal) : Storage :=
  storage.map (fun r =>
    if r.name == name then ⟨r.name, upsert r.system_attrs key v⟩ else r)

/-- Modelled from the spec: `optuna.load_study`, the external study
lookup, raising a not-found error when no study has the name. -/
def optunaLoadStudy (storage : Storage) (name : String) :
    Except StoreErr StudyRecord :=
  match storage.find? (fun r => r.name == name) with
  | some r => Except.ok r
  | none => Except.error StoreErr.studyNotFound

/-- Embeds `load_study`: load through the store, then reject with `ValueError`
any study whose preferential marker is not truthy. -/
def loadStudy (storage : Storage) (name : String) : Except StoreErr StudyRecord :=
  match optunaLoadStudy storage name with
  | Except.error e => Except.error e
  | Except.ok study =>
      if isTruthy (attrGet study.system_attrs SYSTEM_ATTR_PREFERENTIAL_STUDY) then
        Except.ok study
      else
        Except.error (StoreErr.valueError "The study is not a PreferentialStudy.")

/-- Embeds `create_study`: create through the store and set the preferential
marker; on a duplicate name, fall back to `load_study` when
`load_if_exists` is set, otherwise re-raise. -/
def createStudy (storage : Storage) (name : String) (load_if_exists : Bool) :
    Except StoreErr (Storage × StudyRecord) :=
  match optunaCreateStudy storage name with
  | Except.ok (storage1, sname) =>
      let storage2 := setStudySystemAttr storage1 sname SYSTEM_ATTR_PREFERENTIAL_STUDY
        (AttrVal.boolv true)
      match optunaLoadStudy storage2 sname with
      | Except.ok st => Except.ok (storage2, st)
      | Except.error e => Except.error e
  | Except.error StoreErr.duplicatedStudy =>
      if load_if_exists then
        match loadStudy storage name with
        | Except.ok st => Except.ok (storage, st)
        | Except.error e => Except.error e
      else
        Except.error StoreErr.duplicatedStudy
  | Except.error e => Except.error e

/-- The cross product of number pairs a single `report_preference` call
records, better as the outer loop. -/
def crossPairs (better worse : TrialsArg) : List (Nat × Nat) :=
  (normalizeTrials better).flatMap
    (fun b => (normalizeTrials worse).map (fun w => (b.number, w.number)))

/-- A sequence of `report_preference` calls, applied left to right. -/
def reportAll (s : StudyState) (calls : List (TrialsArg × TrialsArg)) : StudyState :=
  calls.foldl (fun st c => reportPreference st c.1 c.2) s

/-! ### Concrete sample data for witnesses -/

/-- A complete, comparison-ready trial with number 0 and id 100. -/
def sampleTrial0 : FrozenTrial :=
  ⟨0, 100, TrialState.complete, [(SYSTEM_ATTR_COMPARISON_READY, AttrVal.boolv true)]⟩

/-- A complete, comparison-ready trial with number 1 and id 101. -/
def sampleTrial1 : FrozenTrial :=
  ⟨1, 101, TrialState.complete, [(SYSTEM_ATTR_COMPARISON_READY, AttrVal.boolv true)]⟩

/-- A one-trial study whose only trial is already comparison-ready. -/
def readyStudy : StudyState := ⟨[sampleTrial0], []⟩

/-! ### Helper lemmas -/

lemma map_deepcopy (l : List FrozenTrial) : l.map deepcopy = l :=
  List.map_id l

lemma mem_getBestTrials_iff (s : StudyState) (t : FrozenTrial) :
    t ∈ getBestTrials s ↔
      t ∈ s.trials ∧ (t.state = TrialState.complete ∨ t.state = TrialState.running)
        ∧ attrGet t.system_attrs SYSTEM_ATTR_COMPARISON_READY = some (AttrVal.boolv true)
        ∧ t.number ∉ s.preferences.map Prod.snd := by
  simp [getBestTrials, getAllTrials, ledgerReadAll, map_deepcopy,
    List.mem_filter, List.mem_cons, decide_eq_true_eq]
  tauto

lemma getBestTrials_eq_filter (s : StudyState) :
    getBestTrials s = s.trials.filter (fun t =>
      ((t.state == TrialState.complete || t.state == TrialState.running)
        && (attrGet t.system_attrs SYSTEM_ATTR_COMPARISON_READY
              == some (AttrVal.boolv true)))
      && !((s.preferences.map Prod.snd).contains t.number)) := by
  simp only [getBestTrials, getAllTrials, ledgerReadAll, map_deepcopy,
    List.filter_filter]
  apply List.filter_congr
  intro t _
  simp [List.contains, Bool.and_comm, Bool.and_left_comm, Bool.and_assoc]
  rfl

/-- Claim C1: `get_best_trials` returns exactly the deep copies of the
trials whose state is complete or running, whose comparison-ready flag is
set, and whose number never appears as the worse element of any recorded
preference statement; a ready trial with zero comparisons is included, a
ready trial appearing as worse even once is excluded, and a trial not
marked ready is never included. -/
theorem C1_best_trials_frontier (s : StudyState) :
    getBestTrials s = s.trials.filter (fun t =>
      ((t.state == TrialState.complete || t.state == TrialState.running)
        && (attrGet t.system_attrs SYSTEM_ATTR_COMPARISON_READY
              == some (AttrVal.boolv true)))
      && !((s.preferences.map Prod.snd).contains t.number))
    ∧ ∀ t : FrozenTrial, t ∈ getBestTrials s ↔
        (t ∈ s.trials ∧ (t.state = TrialState.complete ∨ t.state = TrialState.running)
          ∧ attrGet t.system_attrs SYSTEM_ATTR_COMPARISON_READY = some (AttrVal.boolv true)
          ∧ ∀ p ∈ s.preferences, p.2 ≠ t.number) := by
  refine ⟨getBestTrials_eq_filter s, fun t => ?_⟩
  rw [mem_getBestTrials_iff]
  have hmap : t.number ∉ s.preferences.map Prod.snd ↔ ∀ p ∈ s.preferences, p.2 ≠ t.number := by
    constructor
    · intro h p hp hEq
      exact h (List.mem_map.mpr ⟨p, hp, hEq⟩)
    · intro h hmem
      rcases List.mem_map.mp hmem with ⟨p, hp, hEq⟩
      exact h p hp hEq
  tauto

/-- Witness for C1 at a concrete input: the frontier of the one-trial
ready study equals the stated filter of its trial list. -/
theorem C1_witness :
    getBestTrials readyStudy = readyStudy.trials.filter (fun t =>
      ((t.state == TrialState.complete || t.state == TrialState.running)
        && (attrGet t.system_attrs SYSTEM_ATTR_COMPARISON_READY
              == some (AttrVal.boolv true)))
      && !((readyStudy.preferences.map Prod.snd).contains t.number)) :=
  (C1_best_trials_frontier readyStudy).1

/-- Claim C2: `report_preference` normalizes a scalar better or worse
argument into a one-element list and appends to the Ledger exactly the
full (better × worse) cross product of number pairs in nested order,
better as the outer loop, in a single append call; with better `[A, B]`
and worse `[C, D]` exactly the four statements (A,C), (A,D), (B,C), (B,D)
are recorded in that order. -/
theorem C2_report_preference_cross_product (s : StudyState)
    (better worse : TrialsArg) (tA tB tC tD : FrozenTrial) :
    reportPreference s better worse
      = report_preferences s ((normalizeTrials better).flatMap
          (fun b => (normalizeTrials worse).map (fun w => (b.number, w.number))))
    ∧ (reportPreference s better worse).preferences
      = s.preferences ++ (normalizeTrials better).flatMap
          (fun b => (normalizeTrials worse).map (fun w => (b.number, w.number)))
    ∧ (reportPreference s better worse).trials = s.trials
    ∧ reportPreference s (TrialsArg.single tA) worse
      = reportPreference s (TrialsArg.list [tA]) worse
    ∧ reportPreference s better (TrialsArg.single tC)
      = reportPreference s better (TrialsArg.list [tC])
    ∧ (reportPreference s (TrialsArg.list [tA, tB]) (TrialsArg.list [tC, tD])).preferences
      = s.preferences ++ [(tA.number, tC.number), (tA.number, tD.number),
          (tB.number, tC.number), (tB.number, tD.number)] :=
  ⟨rfl, rfl, rfl, rfl, rfl, rfl⟩

/-- Witness for C2 at a concrete input: reporting better [t0, t1] and
worse [t0, t1] on an empty study appends the four cross-product pairs in
nested order. -/
theorem C2_witness :
    (reportPreference (⟨[], []⟩ : StudyState)
        (TrialsArg.list [sampleTrial0, sampleTrial1])
        (TrialsArg.list [sampleTrial0, sampleTrial1])).preferences
      = [] ++ [(sampleTrial0.number, sampleTrial0.number),
          (sampleTrial0.number, sampleTrial1.number),
          (sampleTrial1.number, sampleTrial0.number),
          (sampleTrial1.number, sampleTrial1.number)] :=
  (C2_report_preference_cross_product ⟨[], []⟩ (TrialsArg.list [])
    (TrialsArg.list []) sampleTrial0 sampleTrial1 sampleTrial0
    sampleTrial1).2.2.2.2.2

/-- Claim C4: after recording the cyclic statements (A, B) and then
(B, A) through `report_preference`, `get_best_trials` excludes both A and
B; the cycle is not detected or resolved. -/
theorem C4_cycle_excludes_both (s : StudyState) (A B : FrozenTrial) :
    A ∉ getBestTrials (reportPreference
        (reportPreference s (TrialsArg.single A) (TrialsArg.single B))
        (TrialsArg.single B) (TrialsArg.single A))
    ∧ B ∉ getBestTrials (reportPreference
        (reportPreference s (TrialsArg.single A) (TrialsArg.single B))
        (TrialsArg.single B) (TrialsArg.single A)) := by
  constructor
  · intro hmem
    have h := (mem_getBestTrials_iff _ _).mp hmem
    have hw := h.2.2.2
    apply hw
    apply List.mem_map.mpr
    refine ⟨(B.number, A.number), ?_, rfl⟩
    simp [reportPreference, report_preferences, normalizeTrials]
  · intro hmem
    have h := (mem_getBestTrials_iff _ _).mp hmem
    have hw := h.2.2.2
    apply hw
    apply List.mem_map.mpr
    refine ⟨(A.number, B.number), ?_, rfl⟩
    simp [reportPreference, report_preferences, normalizeTrials]

/-- Witness for C4 at a concrete input: after the cyclic reports, the
ready trial 0 of `readyStudy` is excluded from the frontier. -/
theorem C4_witness :
    sampleTrial0 ∉ getBestTrials (reportPreference
        (reportPreference readyStudy (TrialsArg.single sampleTrial0)
          (TrialsArg.single sampleTrial1))
        (TrialsArg.single sampleTrial1) (TrialsArg.single sampleTrial0)) :=
  (C4_cycle_excludes_both readyStudy sampleTrial0 sampleTrial1).1

/-- Claim C10: `get_best_trials` treats a trial as ready only when its
comparison-ready attribute is exactly the boolean `True`; a trial whose
attribute is absent or any other value, truthy values included, is never
in the result. -/
theorem C10_ready_flag_requires_bool_true (s : StudyState) (t : FrozenTrial)
    (h : attrGet t.system_attrs SYSTEM_ATTR_COMPARISON_READY
        ≠ some (AttrVal.boolv true)) :
    t ∉ getBestTrials s := by
  intro hmem
  exact h ((mem_getBestTrials_iff s t).mp hmem).2.2.1

/-- Witness for C10 at a concrete input: a complete trial whose
comparison-ready attribute holds the truthy integer 1 rather than the
boolean `True` is not returned, even with an empty Ledger. -/
theorem C10_witness :
    FrozenTrial.mk 0 0 TrialState.complete
        [(SYSTEM_ATTR_COMPARISON_READY, AttrVal.intv 1)]
      ∉ getBestTrials (StudyState.mk
          [FrozenTrial.mk 0 0 TrialState.complete
            [(SYSTEM_ATTR_COMPARISON_READY, AttrVal.intv 1)]] []) :=
  C10_ready_flag_requires_bool_true _ _ (by decide)

lemma find?_key_replace (attrs : List (String × AttrVal)) (k : String) (v : AttrVal)
    (h : attrs.any (fun p => p.1 == k) = true) :
    (attrs.map (fun p => if p.1 == k then (k, v) else p)).find? (fun p => p.1 == k)
      = some (k, v) := by
  induction attrs with
  | nil => simp at h
  | cons q l ih =>
    rw [List.map_cons]
    by_cases hq : (q.1 == k) = true
    · rw [if_pos hq]
      apply List.find?_cons_of_pos
      simp
    · rw [if_neg hq]
      have hl : l.any (fun p => p.1 == k) = true := by
        simpa [List.any_cons, hq] using h
      have step : List.find? (fun p => p.1 == k)
          (q :: List.map (fun p => if p.1 == k then (k, v) else p) l)
          = List.find? (fun p => p.1 == k)
              (List.map (fun p => if p.1 == k then (k, v) else p) l) :=
        List.find?_cons_of_neg _ hq
      rw [step]
      exact ih hl

lemma attrGet_upsert_self (attrs : List (String × AttrVal)) (k : String) (v : AttrVal) :
    attrGet (upsert attrs k v) k = some v := by
  unfold upsert
  by_cases h : attrs.any (fun p => p.1 == k) = true
  · rw [if_pos h]
    unfold attrGet
    rw [find?_key_replace attrs k v h]
    rfl
  · rw [if_neg h]
    unfold attrGet
    rw [List.find?_append]
    have h1 : attrs.find? (fun p => p.1 == k) = none := by
      rw [List.find?_eq_none]
      intro x hx hpx
      exact h (List.any_eq_true.mpr ⟨x, hx, hpx⟩)
    rw [h1]
    simp

lemma mem_upsert_eq (attrs : List (String × AttrVal)) (k : String) (v : AttrVal) :
    ∀ p ∈ upsert attrs k v, (p.1 == k) = true → p = (k, v) := by
  unfold upsert
  by_cases h : attrs.any (fun p => p.1 == k) = true
  · rw [if_pos h]
    intro p hp hpk
    rcases List.mem_map.mp hp with ⟨q, _, rfl⟩
    by_cases h2 : (q.1 == k) = true
    · simp [h2]
    · rw [if_neg h2] at hpk ⊢
      exact absurd hpk h2
  · rw [if_neg h]
    intro p hp hpk
    rcases List.mem_append.mp hp with hmem | hmem
    · exact absurd (List.any_eq_true.mpr ⟨p, hmem, hpk⟩) h
    · simpa using hmem

lemma upsert_of_mem_eq (l : List (String × AttrVal)) (k : String) (v : AttrVal)
    (hany : l.any (fun p => p.1 == k) = true)
    (hall : ∀ p ∈ l, (p.1 == k) = true → p = (k, v)) :
    upsert l k v = l := by
  unfold upsert
  rw [if_pos hany]
  have hpt : ∀ p ∈ l, (if p.1 == k then (k, v) else p) = p := by
    intro p hp
    by_cases h2 : (p.1 == k) = true
    · rw [if_pos h2]
      exact (hall p hp h2).symm
    · rw [if_neg h2]
  rw [List.map_congr_left hpt]
  exact List.map_id l

lemma any_key_upsert (attrs : List (String × AttrVal)) (k : String) (v : AttrVal) :
    (upsert attrs k v).any (fun p => p.1 == k) = true := by
  have h := attrGet_upsert_self attrs k v
  unfold attrGet at h
  rcases hf : (upsert attrs k v).find? (fun p => p.1 == k) with _ | pr
  · rw [hf] at h
    simp at h
  · have h2 := List.find?_some hf
    exact List.any_eq_true.mpr ⟨pr, List.mem_of_find?_eq_some hf, h2⟩

lemma upsert_upsert (attrs : List (String × AttrVal)) (k : String) (v : AttrVal) :
    upsert (upsert attrs k v) k v = upsert attrs k v :=
  upsert_of_mem_eq (upsert attrs k v) k v (any_key_upsert attrs k v)
    (mem_upsert_eq attrs k v)

lemma upsert_eq_self_of_attrGet (attrs : List (String × AttrVal)) (k : String)
    (v : AttrVal) (hnd : (attrs.map Prod.fst).Nodup)
    (h : attrGet attrs k = some v) :
    upsert attrs k v = attrs := by
  have hfind : ∃ pr, attrs.find? (fun p => p.1 == k) = some pr ∧ pr.2 = v := by
    unfold attrGet at h
    rcases hf : attrs.find? (fun p => p.1 == k) with _ | pr
    · rw [hf] at h
      simp at h
    · rw [hf] at h
      simp at h
      exact ⟨pr, hf, h⟩
  rcases hfind with ⟨pr, hf, hv⟩
  have hprk0 := List.find?_some hf
  have hprk : (pr.1 == k) = true := hprk0
  have hprmem : pr ∈ attrs := List.mem_of_find?_eq_some hf
  have hany : attrs.any (fun p => p.1 == k) = true :=
    List.any_eq_true.mpr ⟨pr, hprmem, hprk⟩
  apply upsert_of_mem_eq attrs k v hany
  intro p hp hpk
  have hinj := List.inj_on_of_nodup_map hnd
  have hpq : p = pr := by
    apply hinj hp hprmem
    rw [beq_iff_eq] at hpk hprk
    rw [hpk, hprk]
  rw [hpq]
  have h1 : pr.1 = k := beq_iff_eq.mp hprk
  calc pr = (pr.1, pr.2) := rfl
    _ = (k, v) := by rw [h1, hv]

lemma setTrialSystemAttr_idem (s : StudyState) (tid : Nat) (k : String) (v : AttrVal) :
    setTrialSystemAttr (setTrialSystemAttr s tid k v) tid k v
      = setTrialSystemAttr s tid k v := by
  unfold setTrialSystemAttr
  simp only [List.map_map]
  congr 1
  apply List.map_congr_left
  intro t _
  by_cases h : (t.trialId == tid) = true
  · simp [Function.comp, h, upsert_upsert]
  · simp [Function.comp, h]

lemma getTrialIdFromNumber_set (s : StudyState) (tid : Nat) (k : String)
    (v : AttrVal) (n : Nat) :
    getTrialIdFromNumber (setTrialSystemAttr s tid k v) n
      = getTrialIdFromNumber s n := by
  unfold getTrialIdFromNumber setTrialSystemAttr
  rw [List.find?_map]
  have hpf : ((fun t : FrozenTrial => t.number == n) ∘ (fun t =>
      if t.trialId == tid then { t with system_attrs := upsert t.system_attrs k v }
      else t)) = (fun t : FrozenTrial => t.number == n) := by
    funext t
    by_cases h : (t.trialId == tid) = true <;> simp [h, Function.comp]
  rw [hpf]
  rcases hf : s.trials.find? (fun t => t.number == n) with _ | t
  · rw [hf]
    rfl
  · rw [hf]
    simp only [Option.map_some']
    congr 1
    split <;> rfl

lemma ready_preserved_set (s : StudyState) (tid2 : Nat) (t : FrozenTrial)
    (ht : t ∈ s.trials)
    (hattr : attrGet t.system_attrs SYSTEM_ATTR_COMPARISON_READY
        = some (AttrVal.boolv true)) :
    ∃ t2 ∈ (setTrialSystemAttr s tid2 SYSTEM_ATTR_COMPARISON_READY
        (AttrVal.boolv true)).trials,
      t2.trialId = t.trialId ∧
        attrGet t2.system_attrs SYSTEM_ATTR_COMPARISON_READY
          = some (AttrVal.boolv true) := by
  unfold setTrialSystemAttr
  refine ⟨_, List.mem_map.mpr ⟨t, ht, rfl⟩, ?_, ?_⟩
  · split <;> rfl
  · split
    · exact attrGet_upsert_self _ _ _
    · exact hattr

/-- Claim C6: `mark_comparison_ready` called with an argument that is
neither a trial handle nor an integer fails immediately with
`RuntimeError("Unexpected trial type")` and leaves the trial store
unchanged; called with a handle or an integer it resolves the concrete
trial id and sets the comparison-ready flag to `True`. -/
theorem C6_mark_ready_dispatch (s : StudyState) (tid : Nat) :
    markComparisonReady s TrialRef.other = Except.error "Unexpected trial type"
    ∧ applyOp s (CoreOp.mark TrialRef.other) = s
    ∧ markComparisonReady s (TrialRef.handle tid)
        = Except.ok (setTrialSystemAttr s tid SYSTEM_ATTR_COMPARISON_READY
            (AttrVal.boolv true))
    ∧ (∀ n rid : Nat, getTrialIdFromNumber s n = some rid →
        markComparisonReady s (TrialRef.number n)
          = Except.ok (setTrialSystemAttr s rid SYSTEM_ATTR_COMPARISON_READY
              (AttrVal.boolv true)))
    ∧ ∀ t2 ∈ (setTrialSystemAttr s tid SYSTEM_ATTR_COMPARISON_READY
          (AttrVal.boolv true)).trials,
        t2.trialId = tid →
          attrGet t2.system_attrs SYSTEM_ATTR_COMPARISON_READY
            = some (AttrVal.boolv true) := by
  refine ⟨rfl, rfl, rfl, ?_, ?_⟩
  · intro n rid h
    simp only [markComparisonReady, h]
  · intro t2 ht2 hid
    unfold setTrialSystemAttr at ht2
    rcases List.mem_map.mp ht2 with ⟨t, _, rfl⟩
    by_cases hcond : (t.trialId == tid) = true
    · rw [if_pos hcond]
      exact attrGet_upsert_self _ _ _
    · rw [if_neg hcond] at hid
      exact absurd (beq_iff_eq.mpr hid) hcond

/-- Witness for C6 at a concrete input: on a study holding the single
trial with number 5 and id 7, marking by the integer 5 resolves to id 7
and sets that trial's comparison-ready flag. -/
theorem C6_witness :
    markComparisonReady (StudyState.mk [FrozenTrial.mk 5 7 TrialState.running []] [])
        (TrialRef.number 5)
      = Except.ok (setTrialSystemAttr
          (StudyState.mk [FrozenTrial.mk 5 7 TrialState.running []] [])
          7 SYSTEM_ATTR_COMPARISON_READY (AttrVal.boolv true)) :=
  (C6_mark_ready_dispatch (StudyState.mk [FrozenTrial.mk 5 7 TrialState.running []] [])
    7).2.2.2.1 5 7 rfl

/-- Claim C7: `mark_comparison_ready` is idempotent - a second call with
the same identifier leaves the store in the state the first call
produced, and marking an already-ready trial is an observable no-op
(stated under the dict invariant that attribute keys are unique); once
set, readiness is monotone - no core operation resets it to false. -/
theorem C7_mark_ready_idempotent_monotone (s s2 : StudyState) (r : TrialRef)
    (op : CoreOp)
    (h : markComparisonReady s r = Except.ok s2) :
    markComparisonReady s2 r = Except.ok s2
    ∧ (∀ tid : Nat, (∀ t ∈ s.trials, (t.system_attrs.map Prod.fst).Nodup) →
        (∀ t ∈ s.trials, t.trialId = tid →
          attrGet t.system_attrs SYSTEM_ATTR_COMPARISON_READY
            = some (AttrVal.boolv true)) →
        markComparisonReady s (TrialRef.handle tid) = Except.ok s)
    ∧ (∀ t ∈ s.trials,
        attrGet t.system_attrs SYSTEM_ATTR_COMPARISON_READY
          = some (AttrVal.boolv true) →
        ∃ t2 ∈ (applyOp s op).trials, t2.trialId = t.trialId ∧
          attrGet t2.system_attrs SYSTEM_ATTR_COMPARISON_READY
            = some (AttrVal.boolv true)) := by
  refine ⟨?_, ?_, ?_⟩
  · cases r with
    | handle tid2 =>
      simp only [markComparisonReady] at h ⊢
      simp only [Except.ok.injEq] at h
      rw [← h, setTrialSystemAttr_idem]
    | number n2 =>
      simp only [markComparisonReady] at h ⊢
      rcases hres : getTrialIdFromNumber s n2 with _ | rid
      · rw [hres] at h
        simp at h
      · rw [hres] at h
        simp only [Except.ok.injEq] at h
        rw [← h, getTrialIdFromNumber_set, hres]
        simp only [setTrialSystemAttr_idem]
    | other =>
      simp only [markComparisonReady] at h
      exact Except.noConfusion h
  · intro tid hnd hready
    simp only [markComparisonReady]
    congr 1
    unfold setTrialSystemAttr
    have hmapeq : ∀ t ∈ s.trials,
        (if t.trialId == tid then { t with system_attrs := upsert t.system_attrs SYSTEM_ATTR_COMPARISON_READY (AttrVal.boolv true) } else t) = t := by
      intro t ht
      by_cases hc : (t.trialId == tid) = true
      · rw [if_pos hc]
        have hup := upsert_eq_self_of_attrGet t.system_attrs
          SYSTEM_ATTR_COMPARISON_READY (AttrVal.boolv true) (hnd t ht)
          (hready t ht (beq_iff_eq.mp hc))
        rw [hup]
      · rw [if_neg hc]
    rw [List.map_congr_left hmapeq]
    have hid : s.trials.map (fun t => t) = s.trials := List.map_id s.trials
    rw [hid]
  · intro t ht hattr
    cases op with
    | report b w => exact ⟨t, ht, rfl, hattr⟩
    | mark r2 =>
      cases r2 with
      | handle tid2 => exact ready_preserved_set s tid2 t ht hattr
      | number n2 =>
        rcases hres : getTrialIdFromNumber s n2 with _ | rid
        · simp only [applyOp, markComparisonReady, hres]
          exact ⟨t, ht, rfl, hattr⟩
        · simp only [applyOp, markComparisonReady, hres]
          exact ready_preserved_set s rid t ht hattr
      | other => exact ⟨t, ht, rfl, hattr⟩

/-- Witness for C7 at a concrete input: marking the already-ready trial
of `readyStudy` by its handle returns the study unchanged. -/
theorem C7_witness :
    markComparisonReady readyStudy (TrialRef.handle 100) = Except.ok readyStudy :=
  (C7_mark_ready_idempotent_monotone readyStudy readyStudy (TrialRef.handle 100)
    (CoreOp.mark (TrialRef.handle 100)) rfl).2.1 100 (by decide) (by decide)

lemma reportAll_cons (s : StudyState) (c : TrialsArg × TrialsArg)
    (cs : List (TrialsArg × TrialsArg)) :
    reportAll s (c :: cs) = reportAll (reportPreference s c.1 c.2) cs := rfl

lemma reportAll_preferences : ∀ (calls : List (TrialsArg × TrialsArg)) (s : StudyState),
    (reportAll s calls).preferences
      = s.preferences ++ calls.flatMap (fun c => crossPairs c.1 c.2)
    ∧ (reportAll s calls).trials = s.trials := by
  intro calls
  induction calls with
  | nil =>
    intro s
    exact ⟨by simp [reportAll], rfl⟩
  | cons c cs ih =>
    intro s
    rw [reportAll_cons]
    rcases ih (reportPreference s c.1 c.2) with ⟨h1, h2⟩
    constructor
    · rw [h1]
      show (s.preferences ++ crossPairs c.1 c.2) ++ _ = _
      rw [List.append_assoc, List.flatMap_cons]
    · exact h2

lemma get?_number (trials : List FrozenTrial)
    (hd : trials.map FrozenTrial.number = List.range trials.length)
    (i : Nat) (hi : i < trials.length) :
    ∃ t, trials[i]? = some t ∧ t.number = i ∧ t ∈ trials := by
  rcases hg : trials[i]? with _ | t
  · have hsome := List.getElem?_eq_getElem hi
    rw [hg] at hsome
    exact absurd hsome (by simp)
  · have hmem : t ∈ trials := List.getElem?_mem hg
    have hnum : (trials.map FrozenTrial.number)[i]? = some t.number := by
      rw [List.getElem?_map, hg]
      rfl
    rw [hd, List.getElem?_range hi] at hnum
    exact ⟨t, rfl, (Option.some.injEq _ _ ▸ hnum).symm, hmem⟩

lemma resolvePairs_dense (trials : List FrozenTrial)
    (hd : trials.map FrozenTrial.number = List.range trials.length) :
    ∀ prefs : List (Nat × Nat),
    (∀ p ∈ prefs, p.1 < trials.length ∧ p.2 < trials.length) →
    ∃ l, resolvePairs trials prefs = some l
      ∧ l.map (fun p => (p.1.number, p.2.number)) = prefs
      ∧ ∀ p ∈ l, p.1 ∈ trials ∧ p.2 ∈ trials := by
  intro prefs
  induction prefs with
  | nil =>
    intro _
    exact ⟨[], rfl, rfl, by simp⟩
  | cons p ps ih =>
    intro hr
    obtain ⟨hp1, hp2⟩ := hr p (List.mem_cons_self p ps)
    obtain ⟨tb, hgb, hnb, hmb⟩ := get?_number trials hd p.1 hp1
    obtain ⟨tw, hgw, hnw, hmw⟩ := get?_number trials hd p.2 hp2
    obtain ⟨l, hl, hmap, hmem⟩ := ih (fun q hq => hr q (List.mem_cons_of_mem p hq))
    refine ⟨(tb, tw) :: l, ?_, ?_, ?_⟩
    · simp [resolvePairs, hgb, hgw, hl]
    · simp [hmap, hnb, hnw]
    · intro q hq
      rcases List.mem_cons.mp hq with hq | hq
      · rw [hq]
        exact ⟨hmb, hmw⟩
      · exact hmem q hq

/-- Claim C8: under the dense-numbering precondition - each trial's
number equals its position in the full ascending trial list starting at
0 - and provided every Ledger statement references an in-range number,
`get_preferences` resolves each statement (b, w) positionally to the pair
of trial snapshots whose numbers are b and w, in Ledger order. -/
theorem C8_get_preferences_positional (trials : List FrozenTrial)
    (prefs : List (Nat × Nat))
    (hd : trials.map FrozenTrial.number = List.range trials.length)
    (hr : ∀ p ∈ prefs, p.1 < trials.length ∧ p.2 < trials.length) :
    ∃ l, getPreferences ⟨trials, prefs⟩ = some l
      ∧ l.map (fun p => (p.1.number, p.2.number)) = prefs
      ∧ ∀ p ∈ l, p.1 ∈ trials ∧ p.2 ∈ trials :=
  resolvePairs_dense trials hd prefs hr

/-- Witness for C8 at a concrete input: two dense-numbered trials and the
duplicated Ledger [(0,1), (0,1)] resolve to the two snapshot pairs in
order. -/
theorem C8_witness :
    ∃ l, getPreferences ⟨[sampleTrial0, sampleTrial1], [(0, 1), (0, 1)]⟩ = some l
      ∧ l.map (fun p => (p.1.number, p.2.number)) = [(0, 1), (0, 1)]
      ∧ ∀ p ∈ l, p.1 ∈ [sampleTrial0, sampleTrial1]
          ∧ p.2 ∈ [sampleTrial0, sampleTrial1] :=
  C8_get_preferences_positional [sampleTrial0, sampleTrial1] [(0, 1), (0, 1)]
    (by decide) (by decide)

/-- Claim C3: starting from an empty Ledger, any sequence of
`report_preference` calls leaves the Ledger holding exactly the reported
pairs in reporting order, duplicates preserved, and `get_preferences`
returns them in that same order and multiplicity (under the
dense-numbering precondition with in-range numbers). -/
theorem C3_report_get_round_trip (trials : List FrozenTrial)
    (calls : List (TrialsArg × TrialsArg))
    (hd : trials.map FrozenTrial.number = List.range trials.length)
    (hr : ∀ p ∈ calls.flatMap (fun c => crossPairs c.1 c.2),
        p.1 < trials.length ∧ p.2 < trials.length) :
    (reportAll ⟨trials, []⟩ calls).preferences
      = calls.flatMap (fun c => crossPairs c.1 c.2)
    ∧ ∃ l, getPreferences (reportAll ⟨trials, []⟩ calls) = some l
        ∧ l.map (fun p => (p.1.number, p.2.number))
          = calls.flatMap (fun c => crossPairs c.1 c.2) := by
  obtain ⟨hpref, htrials⟩ := reportAll_preferences calls ⟨trials, []⟩
  simp only [List.nil_append] at hpref
  refine ⟨hpref, ?_⟩
  obtain ⟨l, hl, hmap, _⟩ :=
    resolvePairs_dense trials hd (calls.flatMap (fun c => crossPairs c.1 c.2)) hr
  refine ⟨l, ?_, hmap⟩
  have hget : getPreferences (reportAll ⟨trials, []⟩ calls)
      = resolvePairs trials (calls.flatMap (fun c => crossPairs c.1 c.2)) := by
    unfold getPreferences ledgerReadAll
    rw [hpref, htrials]
  rw [hget]
  exact hl

/-- Witness for C3 at a concrete input: reporting trial 0 better than
trial 1 twice in a row round-trips through the Ledger as the duplicated,
order-preserved sequence [(0,1), (0,1)]. -/
theorem C3_witness :
    (reportAll ⟨[sampleTrial0, sampleTrial1], []⟩
        [(TrialsArg.single sampleTrial0, TrialsArg.single sampleTrial1),
          (TrialsArg.single sampleTrial0, TrialsArg.single sampleTrial1)]).preferences
      = [(TrialsArg.single sampleTrial0, TrialsArg.single sampleTrial1),
          (TrialsArg.single sampleTrial0, TrialsArg.single sampleTrial1)].flatMap
            (fun c => crossPairs c.1 c.2)
    ∧ ∃ l, getPreferences (reportAll ⟨[sampleTrial0, sampleTrial1], []⟩
          [(TrialsArg.single sampleTrial0, TrialsArg.single sampleTrial1),
            (TrialsArg.single sampleTrial0, TrialsArg.single sampleTrial1)]) = some l
        ∧ l.map (fun p => (p.1.number, p.2.number))
          = [(TrialsArg.single sampleTrial0, TrialsArg.single sampleTrial1),
              (TrialsArg.single sampleTrial0, TrialsArg.single sampleTrial1)].flatMap
                (fun c => crossPairs c.1 c.2) :=
  C3_report_get_round_trip [sampleTrial0, sampleTrial1]
    [(TrialsArg.single sampleTrial0, TrialsArg.single sampleTrial1),
      (TrialsArg.single sampleTrial0, TrialsArg.single sampleTrial1)]
    (by decide) (by decide)

lemma findStudy_eq_none (storage : Storage) (name : String)
    (h : storage.all (fun r => r.name != name) = true) :
    storage.find? (fun r => r.name == name) = none := by
  rw [List.find?_eq_none]
  intro r hr hpred
  have hne := List.all_eq_true.mp h r hr
  rw [bne_iff_ne] at hne
  exact hne (beq_iff_eq.mp hpred)

lemma fresh_of_not_any (storage : Storage) (name : String)
    (h : storage.any (fun r => r.name == name) = false) :
    storage.all (fun r => r.name != name) = true := by
  rw [List.all_eq_true]
  intro r hr
  rw [bne_iff_ne]
  intro heq
  have : storage.any (fun r => r.name == name) = true :=
    List.any_eq_true.mpr ⟨r, hr, beq_iff_eq.mpr heq⟩
  rw [this] at h
  exact Bool.noConfusion h

lemma setStudySystemAttr_fresh (storage : Storage) (name : String) (k : String)
    (v : AttrVal) (h : storage.all (fun r => r.name != name) = true) :
    setStudySystemAttr (storage ++ [⟨name, []⟩]) name k v
      = storage ++ [⟨name, [(k, v)]⟩] := by
  unfold setStudySystemAttr
  rw [List.map_append]
  congr 1
  · have hpt : ∀ r ∈ storage,
        (if r.name == name then (⟨r.name, upsert r.system_attrs k v⟩ : StudyRecord) else r) = r := by
      intro r hr
      have hne := List.all_eq_true.mp h r hr
      rw [bne_iff_ne] at hne
      rw [if_neg (fun hp => hne (beq_iff_eq.mp hp))]
    rw [List.map_congr_left hpt]
    exact List.map_id storage
  · simp [upsert]

lemma optunaLoadStudy_append_fresh (storage : Storage) (name : String)
    (attrs : List (String × AttrVal))
    (h : storage.all (fun r => r.name != name) = true) :
    optunaLoadStudy (storage ++ [⟨name, attrs⟩]) name = Except.ok ⟨name, attrs⟩ := by
  unfold optunaLoadStudy
  rw [List.find?_append, findStudy_eq_none storage name h]
  simp

lemma createStudy_fresh (storage : Storage) (name : String)
    (h : storage.all (fun r => r.name != name) = true) (lie : Bool) :
    createStudy storage name lie
      = Except.ok (storage ++ [⟨name,
            [(SYSTEM_ATTR_PREFERENTIAL_STUDY, AttrVal.boolv true)]⟩],
          ⟨name, [(SYSTEM_ATTR_PREFERENTIAL_STUDY, AttrVal.boolv true)]⟩) := by
  have hany : storage.any (fun r => r.name == name) = false := by
    rw [List.any_eq_false]
    intro r hr hpred
    have hne := List.all_eq_true.mp h r hr
    rw [bne_iff_ne] at hne
    exact hne (beq_iff_eq.mp hpred)
  have hcreate : optunaCreateStudy storage name
      = Except.ok (storage ++ [⟨name, []⟩], name) := by
    unfold optunaCreateStudy
    rw [if_neg (by rw [hany]; exact Bool.noConfusion)]
  simp only [createStudy, hcreate,
    setStudySystemAttr_fresh storage name SYSTEM_ATTR_PREFERENTIAL_STUDY
      (AttrVal.boolv true) h,
    optunaLoadStudy_append_fresh storage name
      [(SYSTEM_ATTR_PREFERENTIAL_STUDY, AttrVal.boolv true)] h]

lemma loadStudy_reject (storage : Storage) (name : String) (st : StudyRecord)
    (h1 : optunaLoadStudy storage name = Except.ok st)
    (h2 : isTruthy (attrGet st.system_attrs SYSTEM_ATTR_PREFERENTIAL_STUDY) = false) :
    loadStudy storage name
      = Except.error (StoreErr.valueError "The study is not a PreferentialStudy.") := by
  simp only [loadStudy, h1]
  rw [if_neg (by rw [h2]; exact Bool.noConfusion)]

lemma loadStudy_ok_marker (storage : Storage) (name : String) (st : StudyRecord)
    (h : loadStudy storage name = Except.ok st) :
    isTruthy (attrGet st.system_attrs SYSTEM_ATTR_PREFERENTIAL_STUDY) = true := by
  unfold loadStudy at h
  rcases hload : optunaLoadStudy storage name with e | st2
  · rw [hload] at h
    exact Except.noConfusion h
  · rw [hload] at h
    have h2 : (if isTruthy (attrGet st2.system_attrs SYSTEM_ATTR_PREFERENTIAL_STUDY)
        then Except.ok st2
        else (Except.error (StoreErr.valueError "The study is not a PreferentialStudy.")
          : Except StoreErr StudyRecord)) = Except.ok st := h
    by_cases hc : isTruthy (attrGet st2.system_attrs SYSTEM_ATTR_PREFERENTIAL_STUDY) = true
    · rw [if_pos hc] at h2
      have hst : st2 = st := by simpa using h2
      rw [← hst]
      exact hc
    · rw [if_neg hc] at h2
      exact Except.noConfusion h2

lemma createStudy_ok_marker (stor stor2 : Storage) (nm : String) (lie : Bool)
    (rec : StudyRecord)
    (h : createStudy stor nm lie = Except.ok (stor2, rec)) :
    isTruthy (attrGet rec.system_attrs SYSTEM_ATTR_PREFERENTIAL_STUDY) = true := by
  by_cases hany : stor.any (fun r => r.name == nm) = true
  · have hdup : optunaCreateStudy stor nm = Except.error StoreErr.duplicatedStudy := by
      unfold optunaCreateStudy
      rw [if_pos hany]
    rw [createStudy, hdup] at h
    cases lie with
    | false => simp at h
    | true =>
      rcases hload : loadStudy stor nm with e | st2
      · rw [hload] at h
        simp at h
      · rw [hload] at h
        have hrec : st2 = rec := by
          simp at h
          exact h.2
        rw [← hrec]
        exact loadStudy_ok_marker stor nm st2 hload
  · have hfresh : stor.all (fun r => r.name != nm) = true := by
      apply fresh_of_not_any
      revert hany
      cases stor.any (fun r => r.name == nm) <;> simp
    rw [createStudy_fresh stor nm hfresh lie] at h
    have hrec : (⟨nm, [(SYSTEM_ATTR_PREFERENTIAL_STUDY, AttrVal.boolv true)]⟩ : StudyRecord) = rec := by
      simp at h
      exact h.2
    rw [← hrec]
    rfl

/-- Claim C5: `load_study` raises the domain-mismatch `ValueError` for
every study whose system attributes lack a truthy preferential marker,
and succeeds for every study created through `create_study`, which sets
the marker at creation. -/
theorem C5_load_study_marker (storage : Storage) (name : String) (st : StudyRecord)
    (h1 : optunaLoadStudy storage name = Except.ok st)
    (h2 : isTruthy (attrGet st.system_attrs SYSTEM_ATTR_PREFERENTIAL_STUDY) = false) :
    loadStudy storage name
      = Except.error (StoreErr.valueError "The study is not a PreferentialStudy.")
    ∧ ∀ (storage2 : Storage) (name2 : String),
        storage2.all (fun r => r.name != name2) = true →
        ∃ storage3 st3, createStudy storage2 name2 false = Except.ok (storage3, st3)
          ∧ loadStudy storage3 name2 = Except.ok st3 := by
  refine ⟨loadStudy_reject storage name st h1 h2, ?_⟩
  intro storage2 name2 h3
  refine ⟨storage2 ++ [⟨name2, [(SYSTEM_ATTR_PREFERENTIAL_STUDY, AttrVal.boolv true)]⟩],
    ⟨name2, [(SYSTEM_ATTR_PREFERENTIAL_STUDY, AttrVal.boolv true)]⟩,
    createStudy_fresh storage2 name2 h3 false, ?_⟩
  simp only [loadStudy, optunaLoadStudy_append_fresh storage2 name2
    [(SYSTEM_ATTR_PREFERENTIAL_STUDY, AttrVal.boolv true)] h3]
  rw [if_pos (by decide)]

/-- Witness for C5 at a concrete input: loading the unmarked study "s"
raises the domain-mismatch error. -/
theorem C5_witness :
    loadStudy [⟨"s", []⟩] "s"
      = Except.error (StoreErr.valueError "The study is not a PreferentialStudy.") :=
  (C5_load_study_marker [⟨"s", []⟩] "s" ⟨"s", []⟩ rfl rfl).1

/-- Claim C9: with `load_if_exists` set, `create_study` on an existing
study lacking the preferential marker raises the domain-mismatch error
through the fallback load path rather than returning that study, so every
study returned by `create_study` or `load_study` carries a truthy
preferential marker. -/
theorem C9_create_fallback_marker (storage : Storage) (name : String)
    (st : StudyRecord)
    (h1 : optunaLoadStudy storage name = Except.ok st)
    (h2 : isTruthy (attrGet st.system_attrs SYSTEM_ATTR_PREFERENTIAL_STUDY) = false) :
    createStudy storage name true
      = Except.error (StoreErr.valueError "The study is not a PreferentialStudy.")
    ∧ (∀ (stor stor2 : Storage) (nm : String) (lie : Bool) (rec : StudyRecord),
        createStudy stor nm lie = Except.ok (stor2, rec) →
          isTruthy (attrGet rec.system_attrs SYSTEM_ATTR_PREFERENTIAL_STUDY) = true)
    ∧ (∀ (stor : Storage) (nm : String) (rec : StudyRecord),
        loadStudy stor nm = Except.ok rec →
          isTruthy (attrGet rec.system_attrs SYSTEM_ATTR_PREFERENTIAL_STUDY) = true) := by
  refine ⟨?_, fun stor stor2 nm lie rec h => createStudy_ok_marker stor stor2 nm lie rec h,
    fun stor nm rec h => loadStudy_ok_marker stor nm rec h⟩
  have hany : storage.any (fun r => r.name == name) = true := by
    unfold optunaLoadStudy at h1
    rcases hf : storage.find? (fun r => r.name == name) with _ | r
    · rw [hf] at h1
      exact Except.noConfusion h1
    · have hp := List.find?_some hf
      exact List.any_eq_true.mpr ⟨r, List.mem_of_find?_eq_some hf, hp⟩
  have hdup : optunaCreateStudy storage name = Except.error StoreErr.duplicatedStudy := by
    unfold optunaCreateStudy
    rw [if_pos hany]
  simp only [createStudy, hdup, if_true, loadStudy_reject storage name st h1 h2]

/-- Witness for C9 at a concrete input: `create_study` with
`load_if_exists` on the existing unmarked study "s" raises the
domain-mismatch error. -/
theorem C9_witness :
    createStudy [⟨"s", []⟩] "s" true
      = Except.error (StoreErr.valueError "The study is not a PreferentialStudy.") :=
  (C9_create_fallback_marker [⟨"s", []⟩] "s" ⟨"s", []⟩ rfl rfl).1

end PreferentialCore
